import Mathlib

/-!
Verification of the blogicum blog application's visibility and ownership
rules, shallowly embedded from `blog/views.py` and `blog/forms.py`.
Times are modelled as natural numbers, users by numeric ids; the request
layer is modelled by explicit database passing, and each view handler
becomes a function from the database and the request parameters to a
`Response` (404, 403, redirect, or rendered content).
-/

namespace Blogicum

/-- Modelled from the spec: the `Category` model (models.py is not in the
sources); fields title/slug/is_published, slug unique. -/
structure Category where
  id : Nat
  title : String
  slug : String
  is_published : Bool
deriving DecidableEq, Repr

/-- Modelled from the spec: the `Post` model (models.py is not in the
sources); title, text, pub_date, author reference, category reference,
optional location reference, is_published flag, optional image. -/
structure Post where
  id : Nat
  author : Nat
  title : String
  text : String
  pub_date : Nat
  category : Category
  location : Option Nat
  is_published : Bool
  image : Option String
deriving DecidableEq, Repr

/-- Modelled from the spec: the `Comment` model (models.py is not in the
sources); text, author reference, post reference, created_at. -/
structure Comment where
  id : Nat
  author : Nat
  post : Nat
  text : String
  created_at : Nat
deriving DecidableEq, Repr

/-- Modelled from the spec: the user identity entity (username unique). -/
structure User where
  id : Nat
  username : String
deriving DecidableEq, Repr

/-- The relational store the views query. -/
structure DB where
  users : List User
  categories : List Category
  posts : List Post
  comments : List Comment
deriving DecidableEq, Repr

/-- The visibility predicate of `PostListView.get_queryset`
(views.py lines 23-26): `is_published=True, pub_date__lte=timezone.now(),
category__is_published=True`. -/
def postVisible (now : Nat) (p : Post) : Bool :=
  p.is_published && decide (p.pub_date ≤ now) && p.category.is_published

/-- `Count('comments')` for one post: the number of comments whose post
reference is this post's id. -/
def commentCount (db : DB) (pid : Nat) : Nat :=
  (db.comments.filter (fun c => c.post == pid)).length

/-- A post as produced by `.annotate(comment_count=Count('comments'))`. -/
structure AnnotatedPost where
  post : Post
  comment_count : Nat
deriving DecidableEq, Repr

/-- Attach the comment count to a post, as `.annotate` does. -/
def annotateWithCount (db : DB) (p : Post) : AnnotatedPost :=
  ⟨p, commentCount db p.id⟩

/-- Insert into a list kept in descending `pub_date` order. -/
def insertDesc (a : AnnotatedPost) : List AnnotatedPost → List AnnotatedPost
  | [] => [a]
  | b :: bs =>
    if b.post.pub_date ≤ a.post.pub_date then a :: b :: bs
    else b :: insertDesc a bs

/-- `.order_by('-pub_date')`: sort by publish date, newest first. -/
def sortByPubDateDesc : List AnnotatedPost → List AnnotatedPost
  | [] => []
  | a :: as => insertDesc a (sortByPubDateDesc as)

/-- `PostListView.get_queryset` (views.py lines 22-28): filter by the
visibility predicate, annotate each post with its comment count and order
by publish date descending. -/
def postListQueryset (db : DB) (now : Nat) : List AnnotatedPost :=
  sortByPubDateDesc
    ((db.posts.filter (postVisible now)).map (annotateWithCount db))

/-- `paginate_by = 10` on `PostListView` (views.py line 19). -/
def postListPaginateBy : Nat := 10

/-- `paginate_by = 10` on `ProfileView` (views.py line 96). -/
def profilePaginateBy : Nat := 10

/-- `paginate_by = 10` on `CategoryPostsView` (views.py line 115). -/
def categoryPaginateBy : Nat := 10

/-- The contents of one (0-indexed) page of a paginated queryset. -/
def paginatePage (per : Nat) (xs : List AnnotatedPost) (page : Nat) :
    List AnnotatedPost :=
  (xs.drop (per * page)).take per

/-- Look a post up by primary key, as `get_object_or_404(Post, id=...)`. -/
def findPost (db : DB) (pid : Nat) : Option Post :=
  db.posts.find? (fun p => p.id == pid)

/-- Look a comment up by primary key, as
`get_object_or_404(Comment, id=...)`. -/
def findComment (db : DB) (cid : Nat) : Option Comment :=
  db.comments.find? (fun c => c.id == cid)

/-- Look a user up by username, as
`get_object_or_404(User, username=...)`. -/
def findUser (db : DB) (username : String) : Option User :=
  db.users.find? (fun u => u.username == username)

/-- `ProfileView.get_queryset` (views.py lines 98-105): 404 when the
username is unknown, otherwise every post whose author is that user,
annotated with comment counts and ordered by publish date descending.
No visibility filter and no dependence on the requester. -/
def profileQueryset (db : DB) (username : String) :
    Option (List AnnotatedPost) :=
  match findUser db username with
  | none => none
  | some u =>
    some (sortByPubDateDesc
      ((db.posts.filter (fun p => p.author == u.id)).map
        (annotateWithCount db)))

/-- `CategoryPostsView.get_queryset` (views.py lines 118-128):
`get_object_or_404(Category, slug=..., is_published=True)`, then the
published posts of that category, annotated and ordered as the others. -/
def categoryPostsQueryset (db : DB) (now : Nat) (slug : String) :
    Option (List AnnotatedPost) :=
  match db.categories.find? (fun k => k.slug == slug && k.is_published) with
  | none => none
  | some k =>
    some (sortByPubDateDesc
      ((db.posts.filter (fun p =>
          p.category == k && p.is_published
            && decide (p.pub_date ≤ now) && p.category.is_published)).map
        (annotateWithCount db)))

/-- `PostDetailView.get_object` (views.py lines 74-82): 404 when the id is
unknown; otherwise return the post when the requester is its author or the
post is published, its category is published and its publish date has
passed; otherwise raise Http404. The requester is `none` for an anonymous
visitor. -/
def postDetail (db : DB) (now : Nat) (requester : Option Nat) (pid : Nat) :
    Option Post :=
  match findPost db pid with
  | none => none
  | some p =>
    if requester == some p.author
        || (p.is_published && p.category.is_published
            && decide (p.pub_date ≤ now)) then
      some p
    else
      none

/-- The data `PostForm` carries: every `Post` field except the primary key
and `author` (`forms.py` lines 15-22, `exclude = ['author']`). -/
structure PostFormData where
  title : String
  text : String
  pub_date : Nat
  category : Category
  location : Option Nat
  is_published : Bool
  image : Option String
deriving DecidableEq, Repr

/-- Apply a bound `PostForm` to an existing post: every field except the
primary key and the author is overwritten. -/
def applyPostForm (f : PostFormData) (p : Post) : Post :=
  { p with
    title := f.title
    text := f.text
    pub_date := f.pub_date
    category := f.category
    location := f.location
    is_published := f.is_published
    image := f.image }

/-- Where a redirect response points. -/
inductive RedirectTarget where
  | postDetailPage (pid : Nat)
  | indexPage
  | profilePage (username : String)
deriving DecidableEq, Repr

/-- The outcome of a request: the database after the request, and either a
404, a 403 with its message, or a redirect. -/
inductive Response where
  | notFound (db : DB)
  | forbidden (db : DB) (msg : String)
  | redirect (db : DB) (target : RedirectTarget)
deriving DecidableEq, Repr

/-- Whether a response is a redirect. -/
def Response.isRedirect : Response → Bool
  | .redirect _ _ => true
  | _ => false

/-- The database after `PostUpdateView` saves its form: the post with the
given id is overwritten from the form data. -/
def dbWithPostUpdated (db : DB) (pid : Nat) (f : PostFormData) : DB :=
  { db with
    posts := db.posts.map (fun q => if q.id == pid then applyPostForm f q else q) }

/-- `PostUpdateView` (views.py lines 45-57) on a valid form submission by
an authenticated user: 404 when the id is unknown; `dispatch` redirects to
the post's detail page without saving when the requester is not the
author; otherwise the form is saved and `get_success_url` redirects to the
detail page. -/
def postUpdate (db : DB) (requester : Nat) (pid : Nat) (f : PostFormData) :
    Response :=
  match findPost db pid with
  | none => .notFound db
  | some p =>
    if p.author != requester then
      .redirect db (.postDetailPage p.id)
    else
      .redirect (dbWithPostUpdated db pid f) (.postDetailPage p.id)

/-- The database after `PostDeleteView` deletes a post: the post row goes,
and — a data-layer cascade noted by the spec — so do its comments. -/
def dbWithPostDeleted (db : DB) (pid : Nat) : DB :=
  { db with
    posts := db.posts.filter (fun q => !(q.id == pid))
    comments := db.comments.filter (fun c => !(c.post == pid)) }

/-- `PostDeleteView` (views.py lines 60-67) for an authenticated user:
`get_queryset` is scoped to `author=request.user`, so the lookup by
`post_id` only sees the requester's own posts — anyone else gets a 404.
On success the view redirects to `blog:index`. -/
def postDelete (db : DB) (requester : Nat) (pid : Nat) : Response :=
  match (db.posts.filter (fun p => p.author == requester)).find?
      (fun p => p.id == pid) with
  | none => .notFound db
  | some p => .redirect (dbWithPostDeleted db p.id) .indexPage

/-- The post `PostCreateView` builds from a submitted form: every field
from the form, the author forced to the requester by `form_valid`
(views.py lines 37-39). `PostFormData` has no author field at all, after
`exclude = ['author']` in `PostForm`. -/
def newPostFromForm (requester : Nat) (newId : Nat) (f : PostFormData) :
    Post :=
  { id := newId
    author := requester
    title := f.title
    text := f.text
    pub_date := f.pub_date
    category := f.category
    location := f.location
    is_published := f.is_published
    image := f.image }

/-- `PostCreateView` (views.py lines 31-42) on a valid submission by an
authenticated user: a new post is stored whose author is the requester. -/
def postCreate (db : DB) (requester : Nat) (newId : Nat) (f : PostFormData) :
    DB :=
  { db with posts := db.posts ++ [newPostFromForm requester newId f] }

/-- The `PermissionDenied` message of `EditCommentView.dispatch`
(views.py lines 172-174). -/
def editCommentDeniedMsg : String :=
  "Вы не авторизованы для редактирования этого комментария."

/-- The `PermissionDenied` message of `DeleteCommentView.dispatch`
(views.py lines 198-200). -/
def deleteCommentDeniedMsg : String :=
  "Вы не авторизованы для удаления этого комментария."

/-- The database after `EditCommentView` saves its form: the comment text
is overwritten (`CommentForm` has `fields = ['text']`). -/
def dbWithCommentEdited (db : DB) (cid : Nat) (newText : String) : DB :=
  { db with
    comments := db.comments.map (fun d =>
      if d.id == cid then { d with text := newText } else d) }

/-- `EditCommentView` (views.py lines 164-187) on a valid submission by an
authenticated user: `get_object` looks the comment up by `comment_id`
alone; a non-author gets `PermissionDenied`; on success the text is saved
and `get_success_url` redirects to the detail page of the `post_id` taken
from the URL, never from the comment. -/
def editComment (db : DB) (requester : Nat) (postIdKwarg : Nat)
    (cid : Nat) (newText : String) : Response :=
  match findComment db cid with
  | none => .notFound db
  | some c =>
    if c.author != requester then
      .forbidden db editCommentDeniedMsg
    else
      .redirect (dbWithCommentEdited db cid newText)
        (.postDetailPage postIdKwarg)

/-- The database after `DeleteCommentView` deletes a comment. -/
def dbWithCommentDeleted (db : DB) (cid : Nat) : DB :=
  { db with comments := db.comments.filter (fun d => !(d.id == cid)) }

/-- `DeleteCommentView` (views.py lines 190-208) for an authenticated
user: the comment is looked up by `comment_id` (`pk_url_kwarg`); a
non-author gets `PermissionDenied`; on success the comment is deleted and
`get_success_url` redirects to the detail page of the URL's `post_id`. -/
def deleteComment (db : DB) (requester : Nat) (postIdKwarg : Nat)
    (cid : Nat) : Response :=
  match findComment db cid with
  | none => .notFound db
  | some c =>
    if c.author != requester then
      .forbidden db deleteCommentDeniedMsg
    else
      .redirect (dbWithCommentDeleted db cid) (.postDetailPage postIdKwarg)

/-! ### Concrete fixtures used by the witnesses -/

/-- A published category. -/
def exCategory : Category := ⟨1, "Cats", "cat", true⟩

/-- An unpublished category. -/
def exCategory2 : Category := ⟨2, "Hidden", "hid", false⟩

/-- A user with id 1. -/
def exAlice : User := ⟨1, "alice"⟩

/-- A user with id 2. -/
def exBob : User := ⟨2, "bob"⟩

/-- A publicly visible post (published, past date, published category),
authored by user 1. -/
def exPost : Post := ⟨1, 1, "t", "x", 5, exCategory, none, true, none⟩

/-- An unpublished post authored by user 1: the visibility predicate fails
for it. -/
def exPost2 : Post := ⟨2, 1, "d", "y", 100, exCategory, none, false, none⟩

/-- A comment by user 1 on post 1. -/
def exComment : Comment := ⟨1, 1, 1, "hi", 0⟩

/-- A small concrete database. -/
def exDB : DB :=
  ⟨[exAlice, exBob], [exCategory, exCategory2], [exPost, exPost2],
   [exComment]⟩

/-- Submitted form data for the witnesses. -/
def exForm : PostFormData := ⟨"t2", "x2", 6, exCategory, none, false, none⟩

/-- The profile listing of user alice in the concrete database. -/
def exProfileList : List AnnotatedPost :=
  (profileQueryset exDB "alice").getD []

/-- The category listing of slug cat in the concrete database at time
10. -/
def exCatList : List AnnotatedPost :=
  (categoryPostsQueryset exDB 10 "cat").getD []

/-! ### Helper lemmas -/

theorem mem_insertDesc {a x : AnnotatedPost} {l : List AnnotatedPost} :
    a ∈ insertDesc x l ↔ a = x ∨ a ∈ l := by
  induction l with
  | nil => simp [insertDesc]
  | cons b bs ih =>
    by_cases h : b.post.pub_date ≤ x.post.pub_date
    · simp [insertDesc, h]
    · simp only [insertDesc, if_neg h, List.mem_cons, ih]
      tauto

theorem mem_sortByPubDateDesc {a : AnnotatedPost}
    {l : List AnnotatedPost} : a ∈ sortByPubDateDesc l ↔ a ∈ l := by
  induction l with
  | nil => simp [sortByPubDateDesc]
  | cons b bs ih =>
    simp only [sortByPubDateDesc, mem_insertDesc, List.mem_cons, ih]

theorem pairwise_insertDesc {x : AnnotatedPost} {l : List AnnotatedPost}
    (h : l.Pairwise (fun a b => b.post.pub_date ≤ a.post.pub_date)) :
    (insertDesc x l).Pairwise
      (fun a b => b.post.pub_date ≤ a.post.pub_date) := by
  induction l with
  | nil => simp [insertDesc]
  | cons b bs ih =>
    rcases List.pairwise_cons.mp h with ⟨hb, hbs⟩
    by_cases hle : b.post.pub_date ≤ x.post.pub_date
    · simp only [insertDesc, if_pos hle]
      refine List.pairwise_cons.mpr ⟨?_, h⟩
      intro y hy
      rcases List.mem_cons.mp hy with rfl | hy2
      · exact hle
      · exact le_trans (hb y hy2) hle
    · simp only [insertDesc, if_neg hle]
      refine List.pairwise_cons.mpr ⟨?_, ih hbs⟩
      intro y hy
      rcases mem_insertDesc.mp hy with rfl | hy2
      · exact Nat.le_of_not_le hle
      · exact hb y hy2

theorem sorted_sortByPubDateDesc (l : List AnnotatedPost) :
    (sortByPubDateDesc l).Pairwise
      (fun a b => b.post.pub_date ≤ a.post.pub_date) := by
  induction l with
  | nil => simp [sortByPubDateDesc]
  | cons a as ih => exact pairwise_insertDesc ih

theorem paginatePage_length_le (per : Nat) (xs : List AnnotatedPost)
    (k : Nat) : (paginatePage per xs k).length ≤ per := by
  simp only [paginatePage, List.length_take]
  exact Nat.min_le_left _ _

theorem paginatePage_glue (per : Nat) (xs : List AnnotatedPost) (k : Nat) :
    xs.drop (per * k) =
      paginatePage per xs k ++ xs.drop (per * (k + 1)) := by
  have h1 : per * (k + 1) = per * k + per := by ring
  rw [paginatePage, h1, ← List.drop_drop]
  exact (List.take_append_drop per (xs.drop (per * k))).symm

theorem count_ok_of_listing (db : DB) (l : List Post) :
    ∀ a ∈ sortByPubDateDesc (l.map (annotateWithCount db)),
      a.comment_count = commentCount db a.post.id := by
  intro a ha
  rw [mem_sortByPubDateDesc] at ha
  rcases List.mem_map.mp ha with ⟨p, _, rfl⟩
  rfl

theorem mem_listing_iff (db : DB) (l : List Post) (p : Post) :
    annotateWithCount db p ∈
        sortByPubDateDesc (l.map (annotateWithCount db)) ↔ p ∈ l := by
  rw [mem_sortByPubDateDesc]
  constructor
  · intro h
    rcases List.mem_map.mp h with ⟨q, hq, he⟩
    have hqp : q = p := congrArg AnnotatedPost.post he
    exact hqp ▸ hq
  · intro h
    exact List.mem_map.mpr ⟨p, h, rfl⟩

theorem postUpdate_eq_of_found (db : DB) (r pid : Nat) (f : PostFormData)
    (p : Post) (h : findPost db pid = some p) :
    postUpdate db r pid f =
      if p.author != r then Response.redirect db (.postDetailPage p.id)
      else Response.redirect (dbWithPostUpdated db pid f)
        (.postDetailPage p.id) := by
  unfold postUpdate
  rw [h]

theorem postDelete_queryset_miss (db : DB) (r pid : Nat) (p : Post)
    (hor : p.author ≠ r)
    (huniq : ∀ q ∈ db.posts, q.id = pid → q = p) :
    (db.posts.filter (fun q => q.author == r)).find?
      (fun q => q.id == pid) = none := by
  rw [List.find?_eq_none]
  intro q hq
  rcases List.mem_filter.mp hq with ⟨hq1, hq2⟩
  intro hid
  have hqp : q = p := huniq q hq1 (eq_of_beq hid)
  exact hor (hqp ▸ (eq_of_beq hq2))

theorem editComment_eq_of_found (db : DB) (r pidK cid : Nat) (t : String)
    (c : Comment) (h : findComment db cid = some c) :
    editComment db r pidK cid t =
      if c.author != r then Response.forbidden db editCommentDeniedMsg
      else Response.redirect (dbWithCommentEdited db cid t)
        (.postDetailPage pidK) := by
  unfold editComment
  rw [h]

theorem deleteComment_eq_of_found (db : DB) (r pidK cid : Nat)
    (c : Comment) (h : findComment db cid = some c) :
    deleteComment db r pidK cid =
      if c.author != r then Response.forbidden db deleteCommentDeniedMsg
      else Response.redirect (dbWithCommentDeleted db cid)
        (.postDetailPage pidK) := by
  unfold deleteComment
  rw [h]

/-! ### Claim theorems -/

/-- C1: a post appears in the public listing at the index page if and
only if the visibility predicate holds for it: `is_published = true`,
`pub_date` not after now, and its category is published. -/
theorem C1_public_listing_iff_visible (db : DB) (now : Nat) (p : Post) :
    annotateWithCount db p ∈ postListQueryset db now ↔
      p ∈ db.posts ∧ postVisible now p = true := by
  unfold postListQueryset
  rw [mem_listing_iff, List.mem_filter]

/-- C2: the detail view returns the post to its author regardless of the
visibility predicate; to anyone else (another user, or an anonymous
visitor) it returns the post exactly when the visibility predicate holds,
and responds 404 otherwise. -/
theorem C2_detail_author_bypass (db : DB) (now : Nat) (pid : Nat)
    (r : Option Nat) (p : Post) (h : findPost db pid = some p) :
    postDetail db now r pid =
      if r == some p.author || postVisible now p then some p else none := by
  have hb : ∀ a b c : Bool, (a && b && c) = (a && c && b) := by decide
  unfold postDetail
  rw [h]
  simp only [postVisible]
  rw [hb p.is_published p.category.is_published
    (decide (p.pub_date ≤ now))]

/-- Witness for C2 at a concrete database: post 1 exists, and the detail
view evaluates as the theorem states for requester bob. -/
theorem C2_detail_author_bypass_witness :
    findPost exDB 1 = some exPost ∧
    postDetail exDB 10 (some 2) 1 =
      (if (some 2 : Option Nat) == some exPost.author
          || postVisible 10 exPost then some exPost else none) :=
  ⟨by decide, C2_detail_author_bypass exDB 10 1 (some 2) exPost (by decide)⟩

/-- C3: a post update by an authenticated user succeeds (the form is
saved) exactly when the requester is the post's author; any other
requester is redirected to the post's detail page and the database is
left unchanged. -/
theorem C3_update_owner_only (db : DB) (r pid : Nat) (f : PostFormData)
    (p : Post) (h : findPost db pid = some p) :
    (p.author = r →
      postUpdate db r pid f =
        Response.redirect (dbWithPostUpdated db pid f)
          (.postDetailPage p.id)) ∧
    (p.author ≠ r →
      postUpdate db r pid f =
        Response.redirect db (.postDetailPage p.id)) := by
  rw [postUpdate_eq_of_found db r pid f p h]
  constructor
  · intro he
    simp [he]
  · intro hne
    simp [hne]

/-- Witness for C3: the owner's update saves the form, and bob's update
of alice's post redirects with the database unchanged. -/
theorem C3_update_owner_only_witness :
    postUpdate exDB 1 1 exForm =
      Response.redirect (dbWithPostUpdated exDB 1 exForm)
        (.postDetailPage exPost.id) ∧
    postUpdate exDB 2 1 exForm =
      Response.redirect exDB (.postDetailPage exPost.id) :=
  ⟨(C3_update_owner_only exDB 1 1 exForm exPost (by decide)).1 (by decide),
   (C3_update_owner_only exDB 2 1 exForm exPost (by decide)).2 (by decide)⟩

/-- C4: a comment edit or delete by an authenticated user succeeds
exactly when the requester is the comment's author; any other requester
gets a forbidden (403) response carrying a message. -/
theorem C4_comment_mutation_owner_only (db : DB) (r pidK cid : Nat)
    (t : String) (c : Comment) (h : findComment db cid = some c) :
    (c.author = r →
      editComment db r pidK cid t =
        Response.redirect (dbWithCommentEdited db cid t)
          (.postDetailPage pidK) ∧
      deleteComment db r pidK cid =
        Response.redirect (dbWithCommentDeleted db cid)
          (.postDetailPage pidK)) ∧
    (c.author ≠ r →
      editComment db r pidK cid t =
        Response.forbidden db editCommentDeniedMsg ∧
      deleteComment db r pidK cid =
        Response.forbidden db deleteCommentDeniedMsg) := by
  rw [editComment_eq_of_found db r pidK cid t c h,
    deleteComment_eq_of_found db r pidK cid c h]
  constructor
  · intro he
    simp [he]
  · intro hne
    simp [hne]

/-- Witness for C4: alice edits her own comment; bob's delete attempt on
her comment is forbidden with the message. -/
theorem C4_comment_mutation_owner_only_witness :
    editComment exDB 1 1 1 "new" =
      Response.redirect (dbWithCommentEdited exDB 1 "new")
        (.postDetailPage 1) ∧
    deleteComment exDB 2 1 1 =
      Response.forbidden exDB deleteCommentDeniedMsg :=
  ⟨((C4_comment_mutation_owner_only exDB 1 1 1 "new" exComment
      (by decide)).1 (by decide)).1,
   ((C4_comment_mutation_owner_only exDB 2 1 1 "new" exComment
      (by decide)).2 (by decide)).2⟩

/-- C5 counterexample: bob (user 2) requests deletion of alice's post 1.
The claim says every non-owner post mutation — the delete included —
silently redirects to the detail page; the code's author-scoped queryset
misses the post and the response is a 404, not a redirect. -/
theorem C5_counterexample_delete_is_404 :
    postDelete exDB 2 1 = Response.notFound exDB ∧
    (postDelete exDB 2 1).isRedirect = false ∧
    postDelete exDB 2 1 ≠
      Response.redirect exDB (.postDetailPage exPost.id) := by
  refine ⟨by decide, by decide, by decide⟩

/-- C5 as amended: a non-owner's post update is silently redirected to
the detail page with no mutation, but a non-owner's post delete request
responds 404 (the author-scoped queryset misses the post), also with no
mutation. -/
theorem C5_nonowner_post_mutation (db : DB) (r pid : Nat)
    (f : PostFormData) (p : Post) (h : findPost db pid = some p)
    (hor : p.author ≠ r) (huniq : ∀ q ∈ db.posts, q.id = pid → q = p) :
    postUpdate db r pid f = Response.redirect db (.postDetailPage p.id) ∧
    postDelete db r pid = Response.notFound db := by
  constructor
  · rw [postUpdate_eq_of_found db r pid f p h]
    simp [hor]
  · unfold postDelete
    rw [postDelete_queryset_miss db r pid p hor huniq]

/-- Witness for the amended C5: bob's update of alice's post redirects
without mutation and bob's delete of it responds 404. -/
theorem C5_nonowner_post_mutation_witness :
    postUpdate exDB 2 1 exForm =
      Response.redirect exDB (.postDetailPage exPost.id) ∧
    postDelete exDB 2 1 = Response.notFound exDB :=
  C5_nonowner_post_mutation exDB 2 1 exForm exPost (by decide) (by decide)
    (by decide)

/-- C6: the profile listing of a user contains exactly the posts that
user authored — every one of them, whether or not the visibility
predicate holds, and for every requester: `profileQueryset` takes no
requester argument at all, so anonymous and non-owner requesters see the
same list. -/
theorem C6_profile_lists_all_authored (db : DB) (username : String)
    (u : User) (p : Post) (qs : List AnnotatedPost)
    (hu : findUser db username = some u)
    (hqs : profileQueryset db username = some qs) :
    annotateWithCount db p ∈ qs ↔ p ∈ db.posts ∧ p.author = u.id := by
  unfold profileQueryset at hqs
  rw [hu] at hqs
  obtain rfl := (Option.some.inj hqs).symm
  rw [mem_listing_iff, List.mem_filter]
  simp only [beq_iff_eq]

/-- Witness for C6: alice's unpublished post 2, invisible to the public
listing, is in her profile listing. -/
theorem C6_profile_lists_all_authored_witness :
    profileQueryset exDB "alice" = some exProfileList ∧
    (annotateWithCount exDB exPost2 ∈ exProfileList ↔
      exPost2 ∈ exDB.posts ∧ exPost2.author = exAlice.id) :=
  ⟨by decide,
   C6_profile_lists_all_authored exDB "alice" exAlice exPost2
     exProfileList (by decide) (by decide)⟩

/-- C7: a post created through the create view carries the requester as
its author; the form data (`PostFormData`, mirroring `PostForm` with
`exclude = ['author']`) has no author field, so for every submitted form
the stored author is the requester. -/
theorem C7_create_assigns_author (db : DB) (r newId : Nat)
    (f : PostFormData) :
    postCreate db r newId f =
      { db with posts := db.posts ++ [newPostFromForm r newId f] } ∧
    (newPostFromForm r newId f).author = r :=
  ⟨rfl, rfl⟩

/-- C8: comment edit and delete operate on the comment identified by
`comment_id` alone — the lookup never consults the URL's `post_id` — and
on success redirect to the detail page of the URL's `post_id` even when
the comment belongs to a different post. -/
theorem C8_comment_ops_ignore_url_post (db : DB) (r pidK cid : Nat)
    (t : String) (c : Comment) (h : findComment db cid = some c)
    (hmismatch : c.post ≠ pidK) (hauth : c.author = r) :
    editComment db r pidK cid t =
      Response.redirect (dbWithCommentEdited db cid t)
        (.postDetailPage pidK) ∧
    deleteComment db r pidK cid =
      Response.redirect (dbWithCommentDeleted db cid)
        (.postDetailPage pidK) := by
  rw [editComment_eq_of_found db r pidK cid t c h,
    deleteComment_eq_of_found db r pidK cid c h]
  simp [hauth]

/-- Witness for C8: alice's comment sits on post 1, yet an edit and a
delete through a URL naming post 7 succeed and redirect to post 7's
detail page. -/
theorem C8_comment_ops_ignore_url_post_witness :
    editComment exDB 1 7 1 "z" =
      Response.redirect (dbWithCommentEdited exDB 1 "z")
        (.postDetailPage 7) ∧
    deleteComment exDB 1 7 1 =
      Response.redirect (dbWithCommentDeleted exDB 1)
        (.postDetailPage 7) :=
  C8_comment_ops_ignore_url_post exDB 1 7 1 "z" exComment (by decide)
    (by decide) (by decide)

/-- C9: a request for the category page of an unpublished category
responds 404 rather than rendering an empty listing: the category lookup
itself demands `is_published = true`. -/
theorem C9_unpublished_category_404 (db : DB) (now : Nat) (slug : String)
    (k : Category) (hk : k ∈ db.categories) (hs : k.slug = slug)
    (hp : k.is_published = false)
    (huniq : ∀ k2 ∈ db.categories, k2.slug = slug → k2 = k) :
    categoryPostsQueryset db now slug = none := by
  unfold categoryPostsQueryset
  have hnone : db.categories.find?
      (fun c => c.slug == slug && c.is_published) = none := by
    rw [List.find?_eq_none]
    intro c hc hcond
    rcases Bool.and_eq_true_iff.mp hcond with ⟨h1, h2⟩
    have hck : c = k := huniq c hc (eq_of_beq h1)
    rw [hck, hp] at h2
    exact Bool.false_ne_true h2
  rw [hnone]

/-- Witness for C9: the unpublished category with slug hid 404s. -/
theorem C9_unpublished_category_404_witness :
    categoryPostsQueryset exDB 10 "hid" = none :=
  C9_unpublished_category_404 exDB 10 "hid" exCategory2 (by decide)
    (by decide) (by decide) (by decide)

theorem profileQueryset_shape (db : DB) (username : String)
    (qs : List AnnotatedPost) (h : profileQueryset db username = some qs) :
    ∃ l : List Post, qs = sortByPubDateDesc (l.map (annotateWithCount db)) := by
  unfold profileQueryset at h
  cases h1 : findUser db username with
  | none => rw [h1] at h; cases h
  | some u => rw [h1] at h; exact ⟨_, (Option.some.inj h).symm⟩

theorem categoryPostsQueryset_shape (db : DB) (now : Nat) (slug : String)
    (qs : List AnnotatedPost)
    (h : categoryPostsQueryset db now slug = some qs) :
    ∃ l : List Post, qs = sortByPubDateDesc (l.map (annotateWithCount db)) := by
  unfold categoryPostsQueryset at h
  cases h1 : db.categories.find? (fun k => k.slug == slug && k.is_published) with
  | none => rw [h1] at h; cases h
  | some k => rw [h1] at h; exact ⟨_, (Option.some.inj h).symm⟩

/-- C10: each of the three listing views — the public index, a profile
page, a category page — annotates every listed post with its comment
count, is ordered by publish date descending, and paginates at 10 items
per page: every page holds at most 10 items and consecutive pages tile
the queryset in order. -/
theorem C10_listings_annotated_sorted_paginated (db : DB) (now : Nat)
    (username slug : String) (qsP qsC : List AnnotatedPost)
    (hP : profileQueryset db username = some qsP)
    (hC : categoryPostsQueryset db now slug = some qsC) :
    (postListPaginateBy = 10 ∧ profilePaginateBy = 10 ∧
      categoryPaginateBy = 10) ∧
    ((∀ a ∈ postListQueryset db now,
        a.comment_count = commentCount db a.post.id) ∧
      (postListQueryset db now).Pairwise
        (fun a b => b.post.pub_date ≤ a.post.pub_date) ∧
      ∀ k, (paginatePage 10 (postListQueryset db now) k).length ≤ 10 ∧
        (postListQueryset db now).drop (10 * k) =
          paginatePage 10 (postListQueryset db now) k ++
            (postListQueryset db now).drop (10 * (k + 1))) ∧
    ((∀ a ∈ qsP, a.comment_count = commentCount db a.post.id) ∧
      qsP.Pairwise (fun a b => b.post.pub_date ≤ a.post.pub_date) ∧
      ∀ k, (paginatePage 10 qsP k).length ≤ 10 ∧
        qsP.drop (10 * k) =
          paginatePage 10 qsP k ++ qsP.drop (10 * (k + 1))) ∧
    ((∀ a ∈ qsC, a.comment_count = commentCount db a.post.id) ∧
      qsC.Pairwise (fun a b => b.post.pub_date ≤ a.post.pub_date) ∧
      ∀ k, (paginatePage 10 qsC k).length ≤ 10 ∧
        qsC.drop (10 * k) =
          paginatePage 10 qsC k ++ qsC.drop (10 * (k + 1))) := by
  obtain ⟨lP, rfl⟩ := profileQueryset_shape db username qsP hP
  obtain ⟨lC, rfl⟩ := categoryPostsQueryset_shape db now slug qsC hC
  refine ⟨⟨rfl, rfl, rfl⟩, ⟨?_, ?_, ?_⟩, ⟨?_, ?_, ?_⟩, ⟨?_, ?_, ?_⟩⟩
  · exact count_ok_of_listing db _
  · exact sorted_sortByPubDateDesc _
  · exact fun k => ⟨paginatePage_length_le 10 _ k, paginatePage_glue 10 _ k⟩
  · exact count_ok_of_listing db lP
  · exact sorted_sortByPubDateDesc _
  · exact fun k => ⟨paginatePage_length_le 10 _ k, paginatePage_glue 10 _ k⟩
  · exact count_ok_of_listing db lC
  · exact sorted_sortByPubDateDesc _
  · exact fun k => ⟨paginatePage_length_le 10 _ k, paginatePage_glue 10 _ k⟩

/-- Witness for C10 at the concrete database: the per-view page sizes are
10, the first page of the public listing holds at most 10 items and glues
with the rest, and the same holds for the concrete profile and category
listings. -/
theorem C10_listings_annotated_sorted_paginated_witness :
    postListPaginateBy = 10 ∧
    (paginatePage 10 (postListQueryset exDB 10) 0).length ≤ 10 ∧
    (postListQueryset exDB 10).drop (10 * 0) =
      paginatePage 10 (postListQueryset exDB 10) 0 ++
        (postListQueryset exDB 10).drop (10 * (0 + 1)) ∧
    (paginatePage 10 exProfileList 0).length ≤ 10 ∧
    (paginatePage 10 exCatList 0).length ≤ 10 := by
  obtain ⟨⟨h1, -, -⟩, ⟨-, -, hidx⟩, ⟨-, -, hprof⟩, ⟨-, -, hcat⟩⟩ :=
    C10_listings_annotated_sorted_paginated exDB 10 "alice" "cat"
      exProfileList exCatList (by decide) (by decide)
  exact ⟨h1, (hidx 0).1, (hidx 0).2, (hprof 0).1, (hcat 0).1⟩

end Blogicum
